import Mathlib

/-!
Verification development for the Agentic Query System repository.

The file shallowly embeds the parts of the code the claims speak about:
  * `tools_runtime.py` — the `feeds_search` query engine and the
    `execute_tool` dispatcher;
  * `session_manager.py` — the session store (`create_session`,
    `get_session`, `add_message`, `get_conversation_history`);
  * `main.py` — the `/ask` orchestrator (`ask_question`).

Conventions of the embedding:
  * Python strings used as cell contents / match patterns are `List Char`
    (one entry per Unicode scalar); strings only carried around verbatim
    (roles, ids, error text) are Lean `String`.
  * `datetime.now()` instants are abstract `Nat` ticks; the configured
    session timeout is a `Nat` in the same unit.
  * Python `None` is `Option.none`; Python truthiness tests on strings,
    lists and ints are modelled explicitly at each use site
    (`"" `, `[]`, `0` are falsy).
  * Fallible pandas column comparisons return `Except PdErr Bool`
    (a raised `TypeError` is `.error .typeMismatch`); the surrounding
    `try/except` of `feeds_search` turns any such raise into the
    structured `{"error": ...}` dictionary, modelled by `SearchOut.errRaised`.
-/

/-! ## Query engine (`tools_runtime.feeds_search`) -/

/-- pandas column dtype, as far as `feeds_search` inspects it:
`pd.api.types.is_string_dtype` distinguishes `text` from the rest. -/
inductive DType
  | text
  | num
  | boolean
deriving DecidableEq, Repr

/-- A cell / scalar value: string, integer, boolean, or missing (`NaN`).
Numeric cells of the repository data are integral, so `Int` models the
numeric dtype; float-specific behaviour is outside every claim. -/
inductive Value
  | vstr (s : List Char)
  | vint (n : Int)
  | vbool (b : Bool)
  | vna
deriving DecidableEq, Repr

/-- A dataframe row: cells aligned with `Frame.header`. -/
abbrev Row := List Value

/-- The feeds dataframe: column names, their dtypes (positionally aligned
with `header`) and the rows. -/
structure Frame where
  header : List String
  dtypes : List DType
  rows : List Row
deriving DecidableEq, Repr

/-- A filter value, after Python's `isinstance` dispatch in
`feeds_search`: a plain scalar, a list (`isin`), or a dict holding any of
the keys `min` / `max` / `gt` / `lt`. -/
inductive FilterVal
  | scalar (v : Value)
  | oneOf (vs : List Value)
  | range (min? : Option Value) (max? : Option Value)
      (gt? : Option Value) (lt? : Option Value)
deriving DecidableEq, Repr

/-- An exception raised inside a pandas comparison (a `TypeError` from a
dtype-incompatible `>=` / `<=` / `>` / `<`). -/
inductive PdErr
  | typeMismatch
deriving DecidableEq, Repr

/-- The result dictionary of `feeds_search`, one constructor per shape the
Python function can return:
  * `.ok cols data count total` is `{"data": records, "count": count,
    "total_feeds": total}` with `data` carrying the columns `cols`;
  * `.errUnknownColumn c avail` is `{"error": "Unknown column: c",
    "available_columns": avail}` (filter check, line 38);
  * `.errUnknownSort c avail` is the sort-column error (line 68);
  * `.errUnknownColumns cs avail` is the projection error listing the
    invalid subset (line 82);
  * `.errRaised e` is the `except Exception` fallback
    `{"error": "Error in feeds_search: ..."}` (line 97). -/
inductive SearchOut
  | ok (outCols : List String) (data : List Row) (count : Nat) (total : Nat)
  | errUnknownColumn (c : String) (avail : List String)
  | errUnknownSort (c : String) (avail : List String)
  | errUnknownColumns (cs : List String) (avail : List String)
  | errRaised (e : PdErr)
deriving DecidableEq, Repr

/-- ASCII lower-casing of one character (model of `re.IGNORECASE` /
`case=False` for the ASCII data the repository holds). -/
def asciiLower (c : Char) : Char :=
  if 'A' ≤ c && c ≤ 'Z' then Char.ofNat (c.toNat + 32) else c

/-- ASCII lower-casing of a string. -/
def lowerStr (s : List Char) : List Char := s.map asciiLower

/-- Python `str(value)` for the scalar values the engine handles. -/
def pyStr : Value → List Char
  | .vstr s => s
  | .vint n => (toString n).toList
  | .vbool b => if b then ("True").toList else ("False").toList
  | .vna => ("nan").toList

/-- The regular-expression metacharacters of Python `re`. -/
def isMeta (c : Char) : Bool :=
  c = '.' || c = '^' || c = '$' || c = '*' || c = '+' || c = '?' ||
  c = '[' || c = ']' || c = '\\' || c = '|' || c = '(' || c = ')' ||
  c = '\x7b' || c = '\x7d'

/-- A token of the modelled regex fragment: a literal character or `.`
(any character but newline).  `pd.Series.str.contains` defaults to
`regex=True`, so the filter value is fed to Python `re`; the model covers
the fragment of `re` made of literals and `.` — patterns using other
metacharacters are outside the modelled fragment (no theorem below
depends on match results there). -/
inductive RTok
  | lit (c : Char)
  | dot
deriving DecidableEq, Repr

/-- Parse a pattern of the modelled regex fragment; `none` for patterns
using metacharacters other than `.`. -/
def parsePat : List Char → Option (List RTok)
  | [] => some []
  | c :: cs =>
    if c = '.' then (parsePat cs).map (RTok.dot :: ·)
    else if isMeta c then none
    else (parsePat cs).map (RTok.lit c :: ·)

/-- One regex token against one character. -/
def tokM : RTok → Char → Bool
  | .lit a, c => a == c
  | .dot, c => !(c == '\n')

/-- The token list matches a leading segment of `s`. -/
def reMatchAt : List RTok → List Char → Bool
  | [], _ => true
  | _ :: _, [] => false
  | t :: ts, c :: cs => tokM t c && reMatchAt ts cs

/-- Python `re.search`: the token list matches somewhere inside `s`. -/
def reSearch (toks : List RTok) : List Char → Bool
  | [] => reMatchAt toks []
  | c :: cs => reMatchAt toks (c :: cs) || reSearch toks cs

/-- `pat` is a leading segment of `s` (character-wise equality). -/
def leadMatch : List Char → List Char → Bool
  | [], _ => true
  | _ :: _, [] => false
  | a :: as, b :: bs => a == b && leadMatch as bs

/-- `pat` occurs as a literal contiguous substring of `s`. -/
def hasSubstr (pat : List Char) : List Char → Bool
  | [] => leadMatch pat []
  | c :: cs => leadMatch pat (c :: cs) || hasSubstr pat cs

/-- Model of `df[column].str.contains(str(value), case=False, na=False)`
for patterns of the modelled regex fragment: lower-case both sides
(`case=False`), parse the pattern, search.  Out-of-fragment patterns are
modelled as no-match (no theorem depends on them). -/
def strContainsCI (pat s : List Char) : Bool :=
  match parsePat (lowerStr pat) with
  | some toks => reSearch toks (lowerStr s)
  | none => false

/-- The spec-side comparator for claim C3, following the specification
text: the value occurs as a literal substring of the cell, ignoring
case. -/
def substrCI (pat s : List Char) : Bool :=
  hasSubstr (lowerStr pat) (lowerStr s)

/-- Python `==` between a cell and a scalar, as pandas evaluates it
elementwise: equality inside one dtype, `bool` comparing numerically with
`int` (Python `True == 1`), everything else — including `NaN` — `False`.
`==` never raises. -/
def cmpEq : Value → Value → Bool
  | .vstr a, .vstr b => a == b
  | .vint a, .vint b => a == b
  | .vbool a, .vbool b => a == b
  | .vint a, .vbool b => a == (if b then (1 : Int) else 0)
  | .vbool a, .vint b => (if a then (1 : Int) else 0) == b
  | _, _ => false

/-- Lexicographic (code-point) order on strings, Python `<`. -/
def lexLt : List Char → List Char → Bool
  | [], [] => false
  | [], _ :: _ => true
  | _ :: _, [] => false
  | a :: as, b :: bs => a < b || (a == b && lexLt as bs)

/-- Skeleton of an ordered pandas comparison (`<`, `<=`, `>`, `>=`):
apply the dtype-matching comparator, let `bool` compare numerically with
`int`, let `NaN` compare `False` against everything, and raise
`TypeError` on the remaining dtype mixes (pandas raises there). -/
def cmpWith (fi : Int → Int → Bool) (fs : List Char → List Char → Bool)
    : Value → Value → Except PdErr Bool
  | .vstr a, .vstr b => .ok (fs a b)
  | .vint a, .vint b => .ok (fi a b)
  | .vbool a, .vbool b => .ok (fi (if a then 1 else 0) (if b then 1 else 0))
  | .vint a, .vbool b => .ok (fi a (if b then 1 else 0))
  | .vbool a, .vint b => .ok (fi (if a then 1 else 0) b)
  | .vna, _ => .ok false
  | _, .vna => .ok false
  | _, _ => .error .typeMismatch

/-- pandas `>=`. -/
def cmpGe : Value → Value → Except PdErr Bool :=
  cmpWith (fun a b => b ≤ a) (fun a b => lexLt b a || a == b)

/-- pandas `<=`. -/
def cmpLe : Value → Value → Except PdErr Bool :=
  cmpWith (fun a b => a ≤ b) (fun a b => lexLt a b || a == b)

/-- pandas `>`. -/
def cmpGt : Value → Value → Except PdErr Bool :=
  cmpWith (fun a b => b < a) (fun a b => lexLt b a)

/-- pandas `<`. -/
def cmpLt : Value → Value → Except PdErr Bool :=
  cmpWith (fun a b => a < b) (fun a b => lexLt a b)

/-- Index of a column in the header (`len` when absent; every access is
guarded by a membership check first, mirroring the Python code). -/
def colIdx (df : Frame) (c : String) : Nat :=
  df.header.findIdx (· == c)

/-- The cell of `row` in column `c`. -/
def cellAt (df : Frame) (c : String) (row : Row) : Value :=
  row.getD (colIdx df c) Value.vna

/-- The dtype of column `c`. -/
def dtypeOf (df : Frame) (c : String) : DType :=
  df.dtypes.getD (colIdx df c) DType.num

/-- The scalar-filter predicate of `feeds_search` (lines 57–63): a
case-insensitive `str.contains` on a text-typed column (a non-string or
missing cell gives `NaN`, excluded by `na=False`), exact `==` otherwise. -/
def scalarMatch (df : Frame) (c : String) (v : Value) (cell : Value) : Bool :=
  if dtypeOf df c = DType.text then
    match cell with
    | .vstr s => strContainsCI (pyStr v) s
    | _ => false
  else cmpEq cell v

/-- Keep the rows satisfying a fallible predicate, propagating a raise. -/
def filterE (p : Row → Except PdErr Bool) : List Row → Except PdErr (List Row)
  | [] => .ok []
  | r :: rs => do
    let b ← p r
    let rest ← filterE p rs
    pure (if b then r :: rest else rest)

/-- Apply one optional range bound. -/
def applyBound (df : Frame) (c : String)
    (op : Value → Value → Except PdErr Bool) (b? : Option Value)
    (rows : List Row) : Except PdErr (List Row) :=
  match b? with
  | none => .ok rows
  | some b => filterE (fun r => op (cellAt df c r) b) rows

/-- Apply one filter (already known to name an existing column), in the
order the Python code applies the range keys (`min`, `max`, `gt`, `lt`). -/
def applyFilterVal (df : Frame) (c : String) (fv : FilterVal)
    (rows : List Row) : Except PdErr (List Row) :=
  match fv with
  | .scalar v => .ok (rows.filter (fun r => scalarMatch df c v (cellAt df c r)))
  | .oneOf vs => .ok (rows.filter (fun r => vs.any (fun v => cmpEq (cellAt df c r) v)))
  | .range mi ma gt lt => do
    let rows ← applyBound df c cmpGe mi rows
    let rows ← applyBound df c cmpLe ma rows
    let rows ← applyBound df c cmpGt gt rows
    let rows ← applyBound df c cmpLt lt rows
    pure rows

/-- Failure of the filter loop: a reported unknown column, or a raised
pandas exception. -/
inductive FErr
  | unknownColumn (c : String)
  | raised (e : PdErr)
deriving DecidableEq, Repr

/-- The filter loop of `feeds_search` (lines 35–63): iterate the filter
items in order, return on the first unknown column, propagate a raise. -/
def applyFilters (df : Frame) : List (String × FilterVal) → List Row →
    Except FErr (List Row)
  | [], rows => .ok rows
  | (c, fv) :: rest, rows =>
    if df.header.contains c then
      match applyFilterVal df c fv rows with
      | .ok rows1 => applyFilters df rest rows1
      | .error e => .error (.raised e)
    else .error (.unknownColumn c)

/-- `df.head(k)` for the Python `int` argument: the first `k` rows, or for
negative `k` all but the last `|k|` rows. -/
def pdHead (k : Int) (rows : List Row) : List Row :=
  if 0 ≤ k then rows.take k.toNat
  else rows.take (rows.length - (-k).toNat)

/-- The sort step (line 72), `df.sort_values(by=c, ascending=not desc)`.
pandas computes an argsort of the key column with its default
`kind='quicksort'` and reverses it for descending order.  The argsort
primitive is passed in as `asort` because its tie order is
implementation-defined (pandas documents only `mergesort`/`stable` as
stable kinds — see claim C2); every theorem below holds for each choice
of `asort`. -/
def sortStep (asort : List Value → List Nat) (df : Frame) (c : String)
    (desc : Bool) (rows : List Row) : List Row :=
  let keys := rows.map (cellAt df c)
  let perm := asort keys
  let perm := if desc then perm.reverse else perm
  perm.filterMap (fun j => rows.get? j)

/-- The `top_k` step (lines 75–76): Python `if top_k:` is a truthiness
test, so `0` (like `None`) leaves the rows untouched. -/
def limitStep (top_k : Option Int) (rows : List Row) : List Row :=
  match top_k with
  | some k => if k = 0 then rows else pdHead k rows
  | none => rows

/-- The projection step (lines 79–86): Python `if columns:` skips an
empty list; otherwise the invalid subset is reported, else the rows are
cut down to the requested columns in the requested order.  `.error`
carries the invalid subset. -/
def projectStep (df : Frame) (columns : Option (List String))
    (rows : List Row) : Except (List String) (List String × List Row) :=
  match columns with
  | some cols =>
    if cols = [] then .ok (df.header, rows)
    else
      let invalid := cols.filter (fun c => !(df.header.contains c))
      if invalid = [] then
        .ok (cols, rows.map (fun r => cols.map (fun c => cellAt df c r)))
      else .error invalid
  | none => .ok (df.header, rows)

/-- Tail of the pipeline after filtering and sorting: limit, project,
package the result. -/
def searchTail (df : Frame) (columns : Option (List String))
    (top_k : Option Int) (rows : List Row) : SearchOut :=
  let rows1 := limitStep top_k rows
  match projectStep df columns rows1 with
  | .error invalid => .errUnknownColumns invalid df.header
  | .ok (oc, data) => .ok oc data data.length df.rows.length

/-- `feeds_search` (tools_runtime.py lines 10–98) over a frame `df`
standing for `data_loader.get_feeds_dataframe()`.  Arguments mirror the
Python signature; `filters` is the dict in its insertion order.  Python
`if sort_by:` is a truthiness test, so the empty string skips the whole
sort block — including its unknown-column check. -/
def feeds_search (asort : List Value → List Nat) (df : Frame)
    (filters : List (String × FilterVal)) (columns : Option (List String))
    (top_k : Option Int) (sort_by : Option String) (desc : Bool) : SearchOut :=
  match applyFilters df filters df.rows with
  | .error (.unknownColumn c) => .errUnknownColumn c df.header
  | .error (.raised e) => .errRaised e
  | .ok rows0 =>
    match sort_by with
    | some c =>
      if c = "" then searchTail df columns top_k rows0
      else if df.header.contains c then
        searchTail df columns top_k (sortStep asort df c desc rows0)
      else .errUnknownSort c df.header
    | none => searchTail df columns top_k rows0

/-- Identity argsort (used to instantiate `asort` in concrete
evaluations that do not exercise tie order). -/
def idAsort (keys : List Value) : List Nat := List.range keys.length

example : feeds_search idAsort
    ⟨["FEED_ID", "THEATER"], [DType.num, DType.text],
      [[Value.vint 1, Value.vstr ("PAC").toList],
       [Value.vint 2, Value.vstr ("EUR").toList]]⟩
    [("THEATER", FilterVal.scalar (Value.vstr ("PAC").toList))]
    none none none false
  = SearchOut.ok ["FEED_ID", "THEATER"]
      [[Value.vint 1, Value.vstr ("PAC").toList]] 1 2 := by decide

/-! ## Tool dispatcher (`tools_runtime.execute_tool`) -/

/-- A Python dictionary as the dispatcher sees it: either exactly the
structured-error shape `{"error": msg}`, or some other payload. -/
inductive PyDict (α : Type)
  | errKey (msg : String)
  | other (v : α)
deriving DecidableEq, Repr

/-- The keys of `TOOL_FUNCTIONS` (tools_runtime.py lines 136–140). -/
def TOOL_NAMES : List String :=
  ["feeds_search", "encoder_get_params", "decoder_get_params"]

/-- `execute_tool` (tools_runtime.py lines 143–160).  The three handlers
are supplied as `impl` (the dispatcher treats them opaquely; their own
behaviour is the subject of the `feeds_search` model above): a handler
call either returns a dictionary or raises an exception with message `e`,
modelled by `Except String (PyDict α)`.  `kwargs` is the opaque argument
set; a keyword mismatch is one of the exceptions `impl` may raise. -/
def execute_tool {α β : Type} (impl : String → β → Except String (PyDict α))
    (tool_name : String) (kwargs : β) : PyDict α :=
  if TOOL_NAMES.contains tool_name then
    match impl tool_name kwargs with
    | .ok r => r
    | .error e => .errKey ("Tool execution error: " ++ e)
  else .errKey ("Unknown tool: " ++ tool_name)

/-! ## Session store (`session_manager.py`) -/

/-- One stored tool-invocation descriptor, the dictionary built in
main.py lines 224–234: `{"id": ..., "type": ..., "function": {"name":
..., "arguments": ...}}` (the nested `function` dict is flattened into
the `fnName` / `fnArgs` fields; `ctype` is the `"type"` key). -/
structure ToolCallRec where
  id : String
  ctype : String
  fnName : String
  fnArgs : String
deriving DecidableEq, Repr

/-- `ChatMessage` (session_manager.py lines 11–17). -/
structure ChatMessage where
  role : String
  content : String
  timestamp : Nat
  tool_calls : Option (List ToolCallRec)
  tool_call_id : Option String
deriving DecidableEq, Repr

/-- `ChatSession` (session_manager.py lines 20–25). -/
structure ChatSession where
  session_id : String
  messages : List ChatMessage
  created_at : Nat
  last_updated : Nat
deriving DecidableEq, Repr

/-- `SessionManager` (lines 28–33): the `sessions` dict in insertion
order, and the timeout (`timedelta(hours=h)` and `datetime.now()` are
both abstract `Nat` ticks). -/
structure SessionManager where
  sessions : List (String × ChatSession)
  session_timeout : Nat
deriving DecidableEq, Repr

/-- Dictionary lookup `self.sessions[sid]`. -/
def lookupSession (m : SessionManager) (sid : String) : Option ChatSession :=
  (m.sessions.find? (fun p => p.1 == sid)).map (fun p => p.2)

/-- Dictionary deletion `del self.sessions[sid]`. -/
def removeSession (m : SessionManager) (sid : String) : SessionManager :=
  { m with sessions := m.sessions.filter (fun p => !(p.1 == sid)) }

/-- In-place update of an existing entry (mutating the stored session
object, as the Python methods do). -/
def setSession (m : SessionManager) (sid : String) (s : ChatSession) :
    SessionManager :=
  { m with sessions := m.sessions.map (fun p => if p.1 == sid then (sid, s) else p) }

/-- `create_session` (lines 35–48); the fresh `uuid4` string is injected
as `sid` (assumed fresh, so dict assignment appends). -/
def create_session (m : SessionManager) (sid : String) (now : Nat) :
    SessionManager :=
  { m with sessions := m.sessions ++ [(sid, ⟨sid, [], now, now⟩)] }

/-- `get_session` (lines 50–62): absent ids give `None`; an entry whose
`now - last_updated` exceeds the timeout is deleted and reported `None`
(lazy expiry); otherwise the session is returned and the store is
untouched.  The store after the call is returned alongside. -/
def get_session (m : SessionManager) (sid : String) (now : Nat) :
    Option ChatSession × SessionManager :=
  match lookupSession m sid with
  | none => (none, m)
  | some s =>
    if m.session_timeout < now - s.last_updated then (none, removeSession m sid)
    else (some s, m)

/-- `add_message` (lines 64–82): resolve through `get_session` (so an
expired session is evicted and the append fails), then append the new
message and refresh `last_updated`. -/
def add_message (m : SessionManager) (sid role content : String)
    (tool_calls : Option (List ToolCallRec)) (tool_call_id : Option String)
    (now : Nat) : Bool × SessionManager :=
  match get_session m sid now with
  | (none, m1) => (false, m1)
  | (some s, m1) =>
    let msg : ChatMessage := ⟨role, content, now, tool_calls, tool_call_id⟩
    (true, setSession m1 sid { s with messages := s.messages ++ [msg],
                                      last_updated := now })

/-- One entry of the OpenAI-format history list, a constructor per dict
shape `get_conversation_history` emits. -/
inductive OAIMsg
  | system (content : String)
  | toolRes (content : String) (tool_call_id : Option String)
  | assistantCalls (content : String) (tool_calls : List ToolCallRec)
  | plain (role : String) (content : String)
deriving DecidableEq, Repr

/-- Python truthiness of the optional `tool_calls` list (`None` and `[]`
are falsy). -/
def truthyCalls : Option (List ToolCallRec) → Bool
  | some (_ :: _) => true
  | _ => false

/-- The per-message branch of the history loop (lines 98–115). -/
def pyConvert (msg : ChatMessage) : OAIMsg :=
  if msg.role == "tool" then .toolRes msg.content msg.tool_call_id
  else if msg.role == "assistant" && truthyCalls msg.tool_calls then
    .assistantCalls msg.content (msg.tool_calls.getD [])
  else .plain msg.role msg.content

/-- Modelled from the spec (section 4.4, `history`): translate each
stored `tool` message into a tool-result entry carrying its
invocation-reference id; translate each `assistant` message that carries
tool invocations into an entry exposing those invocations; all other
messages pass through as plain role/content pairs.  Stated separately
from `pyConvert` so the code's translation can be proved to refine the
spec's words (claim C8). -/
def specTranslate (msg : ChatMessage) : OAIMsg :=
  if msg.role == "tool" then .toolRes msg.content msg.tool_call_id
  else if msg.role == "assistant" then
    match msg.tool_calls with
    | some l => if l.isEmpty then .plain msg.role msg.content
                else .assistantCalls msg.content l
    | none => .plain msg.role msg.content
  else .plain msg.role msg.content

/-- `get_conversation_history` (lines 84–117): resolve through
`get_session` (absent or expired gives the empty list — before the
system preamble is considered), optionally prepend the system prompt
(`SYSTEM_PROMPT`, passed in as `sysPrompt`; only its identity matters to
the claims), then translate each stored message in order. -/
def get_conversation_history (sysPrompt : String) (m : SessionManager)
    (sid : String) (include_system : Bool) (now : Nat) :
    List OAIMsg × SessionManager :=
  match get_session m sid now with
  | (none, m1) => ([], m1)
  | (some s, m1) =>
    ((if include_system then [OAIMsg.system sysPrompt] else []) ++
      s.messages.map pyConvert, m1)

/-! ## Orchestrator (`main.py ask_question`) -/

/-- `QueryRequest` (main.py lines 44–46). -/
structure QueryRequest where
  question : String
  session_id : Option String
deriving DecidableEq, Repr

/-- The model capability's first response: `response.choices[0].message`
reduced to the fields the orchestrator reads.  The SDK's
`tool_calls` is `None` or a non-empty list; both falsy cases collapse to
`[]`. -/
structure ModelResp where
  content : Option String
  tool_calls : List ToolCallRec
deriving DecidableEq, Repr

/-- One element of the response's `tool_calls` trace (the `ToolCall`
response model, main.py lines 55–58).  `argumentsRaw` is the serialized
argument object and `result` the serialized tool result: the orchestrator
claims under verification never look inside either, so JSON
parsing/printing is left abstract. -/
structure ToolCallOut where
  name : String
  argumentsRaw : String
  result : String
deriving DecidableEq, Repr

/-- `QueryResponse` (lines 60–63).  `answer` keeps the optional content
the code would hand to the response model. -/
structure QueryResponse where
  answer : Option String
  tool_calls : List ToolCallOut
  session_id : String
deriving DecidableEq, Repr

/-- A raised `HTTPException`; `str(e)` of such an exception is
`"<status>: <detail>"`. -/
structure HttpError where
  status : Nat
  detail : String
deriving DecidableEq, Repr

/-- The body of the `try:` block of `ask_question` (main.py lines
185–303), with the model capability supplied as data (`firstResp` for the
first completion; `finalContent` for the content of the follow-up
completion after tool execution) and the tool executor as `texec`
(serialized arguments in, serialized result out).  A raised
`HTTPException` is the `.error` branch.

Control flow, mirroring the source: resolve or create the session
(`if not session_id:` — `None` and the empty string are falsy); `raise
HTTPException(404)` when the id does not resolve; append the user
message; if the first response carries tool calls, append the assistant
message with the invocation list, execute each invocation in order
appending a `tool` message, call the model again and append its content
as the final assistant message; otherwise the first content is the final
answer and — as the source actually behaves — nothing further is
appended (the comment at line 297 claims the assistant message was
already added, but the only such append, line 237, sits inside the
tool-call branch). -/
def askBody (texec : String → String → String) (firstResp : ModelResp)
    (finalContent : String) (freshId : String) (req : QueryRequest)
    (m : SessionManager) (now : Nat) :
    Except HttpError QueryResponse × SessionManager :=
  let (sid, m1) :=
    match req.session_id with
    | none => (freshId, create_session m freshId now)
    | some s => if s == "" then (freshId, create_session m freshId now)
                else (s, m)
  match get_session m1 sid now with
  | (none, m2) => (.error ⟨404, "Session not found"⟩, m2)
  | (some _, m2) =>
    let (_, m3) := add_message m2 sid ("user") req.question none none now
    match firstResp.tool_calls with
    | [] => (.ok ⟨firstResp.content, [], sid⟩, m3)
    | tc0 :: tcs =>
      let calls := tc0 :: tcs
      let (_, m4) := add_message m3 sid ("assistant")
        (firstResp.content.getD ("")) (some calls) none now
      let step := fun (acc : List ToolCallOut × SessionManager)
          (tc : ToolCallRec) =>
        let res := texec tc.fnName tc.fnArgs
        let (_, mm) := add_message acc.2 sid ("tool") res none (some tc.id) now
        (acc.1 ++ [⟨tc.fnName, tc.fnArgs, res⟩], mm)
      let (made, m5) := calls.foldl step ([], m4)
      let (_, m6) := add_message m5 sid ("assistant") finalContent none none now
      (.ok ⟨some finalContent, made, sid⟩, m6)

/-- `ask_question` (main.py lines 173–314): run the body and apply the
route's own `except Exception` handler, which catches even the
`HTTPException(404)` raised inside the `try:` (FastAPI/Starlette
`HTTPException` subclasses `Exception`) and re-raises it as status 500
with detail `"Internal server error: " + str(e)`.  Provider
(`openai.OpenAIError`) failures and JSON/validation errors are outside
the modelled inputs. -/
def ask_question (texec : String → String → String) (firstResp : ModelResp)
    (finalContent : String) (freshId : String) (req : QueryRequest)
    (m : SessionManager) (now : Nat) :
    Except HttpError QueryResponse × SessionManager :=
  match askBody texec firstResp finalContent freshId req m now with
  | (.ok v, m1) => (.ok v, m1)
  | (.error e, m1) =>
    (.error ⟨500, "Internal server error: " ++ toString e.status ++ ": " ++
      e.detail⟩, m1)

/-! ## Concrete inputs used by witnesses and counterexamples -/

/-- `sort_by` passes the sort block without error: absent, empty
(falsy, skipped), or an existing column. -/
def sortPasses (df : Frame) : Option String → Bool
  | none => true
  | some c => c == "" || df.header.contains c

/-- The index permutation numpy's introsort (the `kind='quicksort'`
default of `argsort`, hence of `DataFrame.sort_values`) produces on an
array of 17 equal keys, obtained by hand-tracing the `aquicksort`
routine of `npysort`: median-of-3 pivoting swaps index 8 with index 15,
the partition loop then swaps the pairs (1,14) … (7,8), and the final
pivot placement swaps positions 8 and 15; the remaining sub-ranges are
below the 15-element insertion-sort threshold and equal keys leave
insertion sort idle.  Any tie order is admissible for an unspecified-tie
argsort; this is the one the library actually produces. -/
def npPerm17 : List Nat :=
  [0, 14, 13, 12, 11, 10, 9, 15, 8, 6, 5, 4, 3, 2, 1, 7, 16]

/-- The argsort primitive standing for numpy `argsort(kind='quicksort')`
on the 17-equal-keys input below. -/
def asortNp17 : List Value → List Nat := fun _ => npPerm17

/-- 17 records sharing the sort-key value `K = 7`, with a distinguishing
id column `I`. -/
def F17 : Frame :=
  ⟨["K", "I"], [DType.num, DType.num],
    (List.range 17).map (fun i => [Value.vint 7, Value.vint (Int.ofNat i)])⟩

/-- Two-row frame for the `top_k` counterexample. -/
def F2r : Frame := ⟨["A"], [DType.num], [[Value.vint 1], [Value.vint 2]]⟩

/-- One text-typed record for the substring counterexample. -/
def F3r : Frame :=
  ⟨["NAME"], [DType.text], [[Value.vstr ("abc").toList]]⟩

/-- Numeric one-column frame for the unknown-column counterexamples. -/
def F5r : Frame := ⟨["K"], [DType.num], [[Value.vint 1], [Value.vint 2]]⟩

/-- A store holding the single fresh session `"s1"`, created at tick 0
with the default 24-hour timeout. -/
def m1Store : SessionManager := create_session ⟨[], 24⟩ ("s1") 0

/-- A session last active at tick 0. -/
def s7w : ChatSession := ⟨"a", [], 0, 0⟩

/-- A store holding `s7w` under id `"a"`, timeout 24. -/
def m7w : SessionManager := ⟨[(("a" : String), s7w)], 24⟩

/-! ## Helper lemmas -/

/-- A metacharacter-free pattern parses to its literal tokens. -/
theorem parsePat_all_lit (l : List Char)
    (h : l.all (fun c => !(isMeta c)) = true) :
    parsePat l = some (l.map RTok.lit) := by
  induction l with
  | nil => rfl
  | cons c cs ih =>
    simp only [List.all_cons, Bool.and_eq_true, Bool.not_eq_true'] at h
    obtain ⟨hc, hcs⟩ := h
    have hdot : ¬(c = '.') := by
      intro he
      subst he
      simp [isMeta] at hc
    simp [parsePat, hdot, hc, ih hcs]

/-- Literal tokens lead-match exactly like character comparison. -/
theorem reMatchAt_lit (p : List Char) :
    ∀ s : List Char, reMatchAt (p.map RTok.lit) s = leadMatch p s := by
  induction p with
  | nil => intro s; cases s <;> rfl
  | cons a as ih =>
    intro s
    cases s with
    | nil => rfl
    | cons b bs => simp [reMatchAt, leadMatch, tokM, ih bs]

/-- Searching a literal-only pattern is substring occurrence. -/
theorem reSearch_lit (p : List Char) :
    ∀ s : List Char, reSearch (p.map RTok.lit) s = hasSubstr p s := by
  intro s
  induction s with
  | nil => simp [reSearch, hasSubstr, reMatchAt_lit]
  | cons c cs ih => simp [reSearch, hasSubstr, reMatchAt_lit, ih]

/-- The filter loop splits over list append. -/
theorem applyFilters_append (df : Frame) (pre rest : List (String × FilterVal)) :
    ∀ rows, applyFilters df (pre ++ rest) rows
      = (applyFilters df pre rows).bind (fun rs => applyFilters df rest rs) := by
  induction pre with
  | nil => intro rows; rfl
  | cons p t ih =>
    intro rows
    obtain ⟨c, fv⟩ := p
    simp only [List.cons_append, applyFilters]
    split
    · cases hv : applyFilterVal df c fv rows with
      | ok rows1 => simp only [hv]; exact ih rows1
      | error e => simp only [hv]; rfl
    · rfl

/-- A positive `top_k` takes the first `top_k` rows of the un-limited
pipeline tail and leaves everything else unchanged. -/
theorem searchTail_limit (df : Frame) (cols : Option (List String))
    (k : Int) (rows : List Row) (oc : List String) (data : List Row)
    (cnt tot : Nat) (hk : 0 < k)
    (h : searchTail df cols none rows = .ok oc data cnt tot) :
    searchTail df cols (some k) rows
      = .ok oc (data.take k.toNat) (data.take k.toNat).length tot := by
  have hk0 : ¬(k = 0) := by omega
  have hknn : 0 ≤ k := le_of_lt hk
  simp only [searchTail, limitStep, hk0, if_false, pdHead, hknn, if_true] at *
  cases hc : cols with
  | none =>
    simp only [projectStep, hc] at h ⊢
    obtain ⟨h1, h2, h3, h4⟩ := SearchOut.ok.inj h
    subst h1; subst h2; subst h4
    simp
  | some l =>
    by_cases hl : l = []
    · simp only [projectStep, hc, hl, if_true] at h ⊢
      obtain ⟨h1, h2, h3, h4⟩ := SearchOut.ok.inj h
      subst h1; subst h2; subst h4
      simp
    · simp only [projectStep, hc, hl, if_false] at h ⊢
      by_cases hinv : l.filter (fun c => !(df.header.contains c)) = []
      · simp only [hinv, if_true] at h ⊢
        obtain ⟨h1, h2, h3, h4⟩ := SearchOut.ok.inj h
        subst h1; subst h4
        have hmap : (data.take k.toNat)
            = (rows.take k.toNat).map (fun r => l.map (fun c => cellAt df c r)) := by
          rw [← h2, List.map_take]
        rw [← hmap]
      · simp only [hinv, if_false] at h
        exact absurd h (by simp)

/-- Unfolding of a successful `get_session`: the id was present, within
the timeout, and the store is untouched. -/
theorem get_session_some (m : SessionManager) (sid : String) (now : Nat)
    (s : ChatSession) (m1 : SessionManager)
    (h : get_session m sid now = (some s, m1)) :
    lookupSession m sid = some s ∧ m1 = m
      ∧ ¬(m.session_timeout < now - s.last_updated) := by
  unfold get_session at h
  cases hl : lookupSession m sid with
  | none => rw [hl] at h; exact absurd h (by simp)
  | some s0 =>
    rw [hl] at h
    dsimp only at h
    split at h
    next he => exact absurd h (by simp)
    next he =>
      have h1 := congrArg Prod.fst h
      have h2 := congrArg Prod.snd h
      dsimp only at h1 h2
      obtain rfl : s0 = s := Option.some.inj h1
      exact ⟨rfl, h2.symm, he⟩

/-- After deletion the id no longer resolves. -/
theorem lookupSession_remove (m : SessionManager) (sid : String) :
    lookupSession (removeSession m sid) sid = none := by
  show ((m.sessions.filter (fun p => !(p.1 == sid))).find?
    (fun p => p.1 == sid)).map (fun p => p.2) = none
  induction m.sessions with
  | nil => rfl
  | cons p t ih =>
    by_cases hp : p.1 == sid
    · simp [List.filter, hp, ih]
    · simp only [List.filter, hp, Bool.not_false]
      simp only [List.find?, hp]
      exact ih

/-- List form of the in-place-update lemma. -/
theorem find_set_aux (sid : String) (s' : ChatSession) :
    ∀ l : List (String × ChatSession),
      (l.find? (fun p => p.1 == sid)).isSome = true →
      ((l.map (fun p => if p.1 == sid then (sid, s') else p)).find?
        (fun p => p.1 == sid)).map (fun p => p.2) = some s' := by
  intro l
  induction l with
  | nil => intro h; simp [List.find?] at h
  | cons p t ih =>
    intro h
    cases hp : (p.1 == sid) with
    | true => simp [List.find?, hp]
    | false =>
      have h' : (t.find? (fun p => p.1 == sid)).isSome = true := by
        simpa [List.find?, hp] using h
      simpa [List.find?, hp] using ih h'

/-- Updating a present id in place makes lookup return the new session. -/
theorem lookupSession_set (m : SessionManager) (sid : String)
    (s s' : ChatSession) (h : lookupSession m sid = some s) :
    lookupSession (setSession m sid s') sid = some (s') := by
  have h' : (m.sessions.find? (fun p => p.1 == sid)).isSome = true := by
    unfold lookupSession at h
    cases hf : m.sessions.find? (fun p => p.1 == sid) with
    | none => rw [hf] at h; exact absurd h (by simp)
    | some q => simp [hf]
  exact find_set_aux sid s' m.sessions h'

/-- The code's per-message history translation coincides with the
specification's description of the translation. -/
theorem pyConvert_eq_spec : pyConvert = specTranslate := by
  funext msg
  unfold pyConvert specTranslate
  by_cases h1 : msg.role == "tool"
  · simp [h1]
  · by_cases h2 : msg.role == "assistant"
    · cases htc : msg.tool_calls with
      | none => simp [h1, h2, truthyCalls, htc]
      | some l =>
        cases l with
        | nil => simp [h1, h2, truthyCalls, htc]
        | cons a as => simp [h1, h2, truthyCalls, htc]
    · simp [h1, h2]

/-- A successful `add_message` appends the message and refreshes
`last_updated`. -/
theorem add_message_some (m : SessionManager) (sid role content : String)
    (tcs : Option (List ToolCallRec)) (tcid : Option String) (now : Nat)
    (s : ChatSession) (hg : get_session m sid now = (some s, m)) :
    add_message m sid role content tcs tcid now
      = (true, setSession m sid
          ⟨s.session_id, s.messages ++ [⟨role, content, now, tcs, tcid⟩],
            s.created_at, now⟩) := by
  unfold add_message
  rw [hg]

/-! ## Claim theorems -/

/-- C1 (code bug): on a request whose first model response carries zero
tool invocations, `ask_question` does return that content as the final
answer with an empty tool-call list — but it appends *no* assistant
message to the session: after the call the session holds only the user
message.  The comment at main.py line 297 claims the assistant message
"was already added above", yet the only such append (line 237) sits
inside the tool-call branch, so the spec's "append it as an assistant
message" is not implemented. -/
theorem c1_zero_toolcalls_no_assistant_message :
    (ask_question (fun _ _ => ("r")) ⟨some ("hello"), []⟩ ("fin") ("u2")
        ⟨("hi"), some ("s1")⟩ m1Store 0).1
      = Except.ok ⟨some ("hello"), [], ("s1")⟩
    ∧ ((ask_question (fun _ _ => ("r")) ⟨some ("hello"), []⟩ ("fin") ("u2")
        ⟨("hi"), some ("s1")⟩ m1Store 0).2.sessions.map
          (fun p => (p.1, p.2.messages.map (fun msg => msg.role))))
      = [(("s1"), [("user")])] :=
  ⟨rfl, rfl⟩

/-- C2 (code bug): `sort_values` is called without a `kind`, so pandas
uses its default `quicksort` argsort, which does not preserve the order
of equal keys.  `npPerm17` is the permutation that argsort produces on 17
equal keys (hand-trace of numpy's `aquicksort`); it is a genuine
ascending argsort of those keys — a permutation of the indices whose key
sequence is unchanged — yet sorting 17 records with equal `K` by `K`
returns the records in a different order than the input, refuting the
stability the spec requires. -/
theorem c2_default_sort_reorders_ties :
    feeds_search asortNp17 F17 [] none none (some ("K")) false
      = SearchOut.ok ["K", "I"]
          (npPerm17.filterMap (fun j => F17.rows.get? j)) 17 17
    ∧ List.Perm (npPerm17.filterMap (fun j => F17.rows.get? j)) F17.rows
    ∧ (npPerm17.filterMap (fun j => F17.rows.get? j)).map (cellAt F17 ("K"))
      = F17.rows.map (cellAt F17 ("K"))
    ∧ npPerm17.filterMap (fun j => F17.rows.get? j) ≠ F17.rows :=
  ⟨rfl, by decide, by decide, by decide⟩

/-- C3 counterexample: the scalar filter value `"a.c"` matches the cell
`"abc"` (because `str.contains` defaults to `regex=True` and `.` matches
any character), although `"a.c"` is not a literal substring of `"abc"` —
refuting "a record matches iff the value occurs as a literal substring
of the cell". -/
theorem c3_regex_matches_non_substring :
    feeds_search idAsort F3r
        [(("NAME"), FilterVal.scalar (Value.vstr ("a.c").toList))]
        none none none false
      = SearchOut.ok ["NAME"] [[Value.vstr ("abc").toList]] 1 1
    ∧ substrCI ("a.c").toList ("abc").toList = false :=
  ⟨rfl, by decide⟩

/-- C3 amended: the scalar predicate against a text column is a
case-insensitive *regular-expression* containment match; it coincides
with case-insensitive literal-substring matching exactly when the value
is free of regex metacharacters.  Against a non-text column it is exact
equality. -/
theorem c3_amended_scalar_predicate :
    (∀ pat s : List Char,
        (lowerStr pat).all (fun c => !(isMeta c)) = true →
        strContainsCI pat s = substrCI pat s)
    ∧ (∀ (df : Frame) (c : String) (v cell : Value),
        ¬(dtypeOf df c = DType.text) →
        scalarMatch df c v cell = cmpEq cell v) := by
  constructor
  · intro pat s h
    unfold strContainsCI substrCI
    rw [parsePat_all_lit (lowerStr pat) h]
    exact reSearch_lit (lowerStr pat) (lowerStr s)
  · intro df c v cell h
    unfold scalarMatch
    rw [if_neg h]

/-- Witness for the amended C3 at concrete inputs. -/
theorem c3_amended_witness :
    ((lowerStr ("AbC").toList).all (fun c => !(isMeta c)) = true
      ∧ strContainsCI ("AbC").toList ("xxabcy").toList
          = substrCI ("AbC").toList ("xxabcy").toList)
    ∧ (¬(dtypeOf F5r ("K") = DType.text)
      ∧ scalarMatch F5r ("K") (Value.vint 1) (Value.vint 1)
          = cmpEq (Value.vint 1) (Value.vint 1)) :=
  ⟨⟨by decide,
    c3_amended_scalar_predicate.1 (("AbC").toList) (("xxabcy").toList)
      (by decide)⟩,
   ⟨by decide,
    c3_amended_scalar_predicate.2 F5r ("K") (Value.vint 1) (Value.vint 1)
      (by decide)⟩⟩

/-- C4 counterexample: with `top_k = 0` present, `feeds_search` returns
all rows (Python `if top_k:` treats `0` as absent), not the first `0`
rows the claim promises. -/
theorem c4_topk_zero_no_truncation :
    feeds_search idAsort F2r [] none (some 0) none false
      = SearchOut.ok ["A"] [[Value.vint 1], [Value.vint 2]] 2 2
    ∧ ¬(feeds_search idAsort F2r [] none (some 0) none false
        = SearchOut.ok ["A"] [] 0 2) :=
  ⟨rfl, by decide⟩

/-- C4 amended: for every *positive* `top_k` the result is the first
`top_k` rows of the corresponding un-limited search — truncation happens
after filtering and sorting, for every frame, filter set, projection,
sort column and direction, and for every argsort primitive; in
particular the limited result is a prefix of the unlimited one. -/
theorem c4_amended_topk_after_sort_filter :
    ∀ (asort : List Value → List Nat) (df : Frame)
      (fs : List (String × FilterVal)) (cols : Option (List String))
      (sb : Option String) (d : Bool) (k : Int)
      (oc : List String) (data : List Row) (cnt tot : Nat),
      0 < k →
      feeds_search asort df fs cols none sb d = .ok oc data cnt tot →
      feeds_search asort df fs cols (some k) sb d
        = .ok oc (data.take k.toNat) (data.take k.toNat).length tot := by
  intro asort df fs cols sb d k oc data cnt tot hk h
  cases ha : applyFilters df fs df.rows with
  | error e =>
    unfold feeds_search at h
    rw [ha] at h
    cases e with
    | unknownColumn c => simp at h
    | raised e2 => simp at h
  | ok rows0 =>
    unfold feeds_search at h ⊢
    rw [ha] at h ⊢
    dsimp only at h ⊢
    cases sb with
    | none => exact searchTail_limit df cols k rows0 oc data cnt tot hk h
    | some c =>
      dsimp only at h ⊢
      by_cases hce : c = ""
      · rw [if_pos hce] at h ⊢
        exact searchTail_limit df cols k rows0 oc data cnt tot hk h
      · rw [if_neg hce] at h ⊢
        by_cases hcc : df.header.contains c = true
        · rw [if_pos hcc] at h ⊢
          exact searchTail_limit df cols k
            (sortStep asort df c d rows0) oc data cnt tot hk h
        · rw [if_neg hcc] at h
          simp at h

/-- Witness for the amended C4 at a concrete input. -/
theorem c4_amended_witness :
    ((0 : Int) < 1
      ∧ feeds_search idAsort F2r [] none none (some ("A")) false
          = SearchOut.ok ["A"] [[Value.vint 1], [Value.vint 2]] 2 2)
    ∧ feeds_search idAsort F2r [] none (some 1) (some ("A")) false
        = SearchOut.ok ["A"]
            (([[Value.vint 1], [Value.vint 2]] : List Row).take (Int.toNat 1))
            ((([[Value.vint 1], [Value.vint 2]] : List Row).take
              (Int.toNat 1)).length) 2 :=
  ⟨⟨by decide, by decide⟩,
   c4_amended_topk_after_sort_filter idAsort F2r [] none (some ("A")) false 1
     ["A"] [[Value.vint 1], [Value.vint 2]] 2 2 (by decide) (by decide)⟩

/-- C5 counterexample, two parts: (i) `sort_by=""` names a column absent
from the schema, yet the search succeeds (Python `if sort_by:` treats
the empty string as absent and skips the unknown-column check); (ii) a
query whose filters name the unknown column `Z` *after* a
dtype-incompatible range filter on the valid column `K` produces the
generic raised-exception error, which names no column. -/
theorem c5_unknown_column_gaps :
    (feeds_search idAsort F5r [] none none (some ("")) false
        = SearchOut.ok ["K"] [[Value.vint 1], [Value.vint 2]] 2 2
      ∧ F5r.header.contains ("") = false)
    ∧ (feeds_search idAsort F5r
          [(("K"), FilterVal.range (some (Value.vstr ("x").toList))
              none none none),
           (("Z"), FilterVal.scalar (Value.vint 1))]
          none none none false
        = SearchOut.errRaised PdErr.typeMismatch
      ∧ F5r.header.contains ("Z") = false) :=
  ⟨⟨rfl, by decide⟩, ⟨rfl, by decide⟩⟩

/-- C5 amended: an unknown column yields the structured error naming the
offending column(s) — the first offending filter column, provided the
filters before it apply without a raised comparison; the sort column,
provided it is nonempty and all filters pass; the invalid subset of the
projection list, provided filters pass and the sort column passes. -/
theorem c5_amended_unknown_column_errors :
    (∀ (asort : List Value → List Nat) (df : Frame)
        (pre post : List (String × FilterVal)) (c : String) (fv : FilterVal)
        (cols : Option (List String)) (tk : Option Int) (sb : Option String)
        (d : Bool) (rows0 : List Row),
      applyFilters df pre df.rows = .ok rows0 →
      df.header.contains c = false →
      feeds_search asort df (pre ++ (c, fv) :: post) cols tk sb d
        = .errUnknownColumn c df.header)
    ∧ (∀ (asort : List Value → List Nat) (df : Frame)
        (fs : List (String × FilterVal)) (cols : Option (List String))
        (tk : Option Int) (c : String) (d : Bool) (rows0 : List Row),
      applyFilters df fs df.rows = .ok rows0 →
      ¬(c = "") →
      df.header.contains c = false →
      feeds_search asort df fs cols tk (some c) d
        = .errUnknownSort c df.header)
    ∧ (∀ (asort : List Value → List Nat) (df : Frame)
        (fs : List (String × FilterVal)) (l : List String)
        (tk : Option Int) (sb : Option String) (d : Bool) (rows0 : List Row),
      applyFilters df fs df.rows = .ok rows0 →
      sortPasses df sb = true →
      ¬(l = []) →
      ¬(l.filter (fun c => !(df.header.contains c)) = []) →
      feeds_search asort df fs (some l) tk sb d
        = .errUnknownColumns (l.filter (fun c => !(df.header.contains c)))
            df.header) := by
  refine ⟨?_, ?_, ?_⟩
  · intro asort df pre post c fv cols tk sb d rows0 h1 h2
    unfold feeds_search
    rw [applyFilters_append df pre ((c, fv) :: post) df.rows, h1]
    dsimp only [Except.bind]
    have hstep : applyFilters df ((c, fv) :: post) rows0
        = Except.error (FErr.unknownColumn c) := by
      unfold applyFilters
      rw [if_neg (show ¬(df.header.contains c = true) by
        rw [h2]; exact Bool.false_ne_true)]
    rw [hstep]
  · intro asort df fs cols tk c d rows0 h1 hc hcc
    unfold feeds_search
    rw [h1]
    dsimp only
    rw [if_neg hc, if_neg (show ¬(df.header.contains c = true) by
      rw [hcc]; exact Bool.false_ne_true)]
  · intro asort df fs l tk sb d rows0 h1 hsp hl hinv
    have hproj : ∀ rows, projectStep df (some l) (limitStep tk rows)
        = Except.error (l.filter (fun c => !(df.header.contains c))) := by
      intro rows
      unfold projectStep
      dsimp only
      rw [if_neg hl]
      rw [if_neg hinv]
    have htail : ∀ rows, searchTail df (some l) tk rows
        = SearchOut.errUnknownColumns
            (l.filter (fun c => !(df.header.contains c))) df.header := by
      intro rows
      unfold searchTail
      dsimp only
      rw [hproj rows]
    unfold feeds_search
    rw [h1]
    dsimp only
    cases sb with
    | none => exact htail rows0
    | some c =>
      unfold sortPasses at hsp
      dsimp only at hsp ⊢
      by_cases hce : c = ""
      · rw [if_pos hce]
        exact htail rows0
      · have hbe : (c == "") = false := by simpa using hce
        rw [hbe, Bool.false_or] at hsp
        rw [if_neg hce, if_pos hsp]
        exact htail (sortStep asort df c d rows0)

/-- Witness for the amended C5 at concrete inputs. -/
theorem c5_amended_witness :
    (feeds_search idAsort F5r
        ([] ++ (("Z"), FilterVal.scalar (Value.vint 1)) :: [])
        none none none false
      = SearchOut.errUnknownColumn ("Z") F5r.header)
    ∧ (feeds_search idAsort F5r [] none none (some ("Q")) false
      = SearchOut.errUnknownSort ("Q") F5r.header)
    ∧ (feeds_search idAsort F5r [] (some [("Q")]) none none false
      = SearchOut.errUnknownColumns
          ((["Q"]).filter (fun c => !(F5r.header.contains c))) F5r.header) :=
  ⟨c5_amended_unknown_column_errors.1 idAsort F5r [] []
      ("Z") (FilterVal.scalar (Value.vint 1)) none none none false F5r.rows
      rfl (by decide),
   c5_amended_unknown_column_errors.2.1 idAsort F5r [] none none
      ("Q") false F5r.rows rfl (by decide) (by decide),
   c5_amended_unknown_column_errors.2.2 idAsort F5r [] ["Q"] none none
      false F5r.rows rfl (by decide) (by decide) (by decide)⟩

/-- C6: `execute_tool` never lets a failure escape: an unknown tool name
yields the structured result with message "Unknown tool: name", and any
exception a registered handler raises is caught and converted into the
same `{"error": message}` shape — for every handler behaviour and every
argument set (the function is total on its modelled inputs). -/
theorem c6_execute_tool_structured :
    ∀ (α β : Type) (impl : String → β → Except String (PyDict α))
      (name : String) (kw : β),
      (TOOL_NAMES.contains name = false →
        execute_tool impl name kw = PyDict.errKey ("Unknown tool: " ++ name))
      ∧ (∀ e, TOOL_NAMES.contains name = true →
        impl name kw = Except.error e →
        execute_tool impl name kw
          = PyDict.errKey ("Tool execution error: " ++ e)) := by
  intro α β impl name kw
  constructor
  · intro h
    unfold execute_tool
    rw [if_neg (show ¬(TOOL_NAMES.contains name = true) by
      rw [h]; exact Bool.false_ne_true)]
  · intro e h hi
    unfold execute_tool
    rw [if_pos h, hi]

/-- Witness for C6 at concrete inputs. -/
theorem c6_witness :
    (TOOL_NAMES.contains ("nope") = false
      ∧ @execute_tool Unit Unit (fun _ _ => Except.error ("boom")) ("nope") ()
          = PyDict.errKey ("Unknown tool: " ++ "nope"))
    ∧ (TOOL_NAMES.contains ("feeds_search") = true
      ∧ @execute_tool Unit Unit (fun _ _ => Except.error ("boom"))
            ("feeds_search") ()
          = PyDict.errKey ("Tool execution error: " ++ "boom")) :=
  ⟨⟨by decide,
    (c6_execute_tool_structured Unit Unit (fun _ _ => Except.error ("boom"))
      ("nope") ()).1 (by decide)⟩,
   ⟨by decide,
    (c6_execute_tool_structured Unit Unit (fun _ _ => Except.error ("boom"))
      ("feeds_search") ()).2 ("boom") (by decide) rfl⟩⟩

/-- C7: `get_session` implements lazy expiry: for a stored session whose
elapsed time since `last_updated` exceeds the timeout, the lookup
reports absence and evicts the entry (regardless of whether the session
was ever touched between its last activity and this lookup — the result
depends only on the stored `last_updated` and `now`); a session within
the timeout is returned unchanged, with the store untouched. -/
theorem c7_get_session_lazy_expiry :
    ∀ (m : SessionManager) (sid : String) (s : ChatSession) (now : Nat),
      lookupSession m sid = some s →
      ((m.session_timeout < now - s.last_updated →
          get_session m sid now = (none, removeSession m sid)
          ∧ lookupSession (removeSession m sid) sid = none)
        ∧ (¬(m.session_timeout < now - s.last_updated) →
          get_session m sid now = (some s, m))) := by
  intro m sid s now hl
  constructor
  · intro he
    refine ⟨?_, lookupSession_remove m sid⟩
    unfold get_session
    rw [hl]
    dsimp only
    rw [if_pos he]
  · intro he
    unfold get_session
    rw [hl]
    dsimp only
    rw [if_neg he]

/-- Witness for C7: the session expires at tick 100 and survives at
tick 5 (timeout 24, last activity 0). -/
theorem c7_witness :
    (lookupSession m7w ("a") = some s7w)
    ∧ (m7w.session_timeout < 100 - s7w.last_updated
        ∧ get_session m7w ("a") 100 = (none, removeSession m7w ("a"))
        ∧ lookupSession (removeSession m7w ("a")) ("a") = none)
    ∧ (¬(m7w.session_timeout < 5 - s7w.last_updated)
        ∧ get_session m7w ("a") 5 = (some s7w, m7w)) :=
  ⟨by decide,
   ⟨by decide,
    ((c7_get_session_lazy_expiry m7w ("a") s7w 100 (by decide)).1
      (by decide)).1,
    ((c7_get_session_lazy_expiry m7w ("a") s7w 100 (by decide)).1
      (by decide)).2⟩,
   ⟨by decide,
    (c7_get_session_lazy_expiry m7w ("a") s7w 5 (by decide)).2 (by decide)⟩⟩

/-- C8: history reconstruction is the order-preserving, deterministic
per-message translation the spec describes: for a live session the
history is the optional system preamble followed by the stored messages
translated one by one by `specTranslate` (tool messages become
tool-result entries carrying their reference id, assistant messages with
a non-empty invocation list expose it, everything else passes through
as role/content); and appending a message extends the reconstructed
history by exactly that message's translation, at the end. -/
theorem c8_history_reconstruction :
    (∀ (prompt : String) (m : SessionManager) (sid : String)
        (s : ChatSession) (m1 : SessionManager) (incl : Bool) (now : Nat),
      get_session m sid now = (some s, m1) →
      (get_conversation_history prompt m sid incl now).1
        = (if incl then [OAIMsg.system prompt] else [])
          ++ s.messages.map specTranslate)
    ∧ (∀ (prompt : String) (m : SessionManager) (sid role content : String)
        (tcs : Option (List ToolCallRec)) (tcid : Option String) (now : Nat)
        (m1 : SessionManager),
      add_message m sid role content tcs tcid now = (true, m1) →
      (get_conversation_history prompt m1 sid false now).1
        = (get_conversation_history prompt m sid false now).1
          ++ [specTranslate ⟨role, content, now, tcs, tcid⟩]) := by
  constructor
  · intro prompt m sid s m1 incl now hg
    unfold get_conversation_history
    rw [hg]
    dsimp only
    rw [pyConvert_eq_spec]
  · intro prompt m sid role content tcs tcid now m1 hadd
    cases hgp : get_session m sid now with
    | mk os m2 =>
      cases os with
      | none =>
        unfold add_message at hadd
        rw [hgp] at hadd
        dsimp only at hadd
        exact absurd (congrArg Prod.fst hadd) (by simp)
      | some s =>
        obtain ⟨hl, hm2, hto⟩ := get_session_some m sid now s m2 hgp
        rw [hm2] at hgp
        rw [add_message_some m sid role content tcs tcid now s hgp] at hadd
        have hm1 : m1 = setSession m sid
            ⟨s.session_id, s.messages ++ [⟨role, content, now, tcs, tcid⟩],
              s.created_at, now⟩ :=
          (congrArg Prod.snd hadd).symm
        subst hm1
        have hl' := lookupSession_set m sid s
          ⟨s.session_id, s.messages ++ [⟨role, content, now, tcs, tcid⟩],
            s.created_at, now⟩ hl
        have hgs' : get_session (setSession m sid
              ⟨s.session_id, s.messages ++ [⟨role, content, now, tcs, tcid⟩],
                s.created_at, now⟩) sid now
            = (some ⟨s.session_id,
                  s.messages ++ [⟨role, content, now, tcs, tcid⟩],
                  s.created_at, now⟩,
               setSession m sid
                 ⟨s.session_id,
                   s.messages ++ [⟨role, content, now, tcs, tcid⟩],
                   s.created_at, now⟩) := by
          unfold get_session
          rw [hl']
          dsimp only
          rw [if_neg (by simp)]
        unfold get_conversation_history
        rw [hgs', hgp]
        dsimp only
        rw [pyConvert_eq_spec]
        simp

/-- Witness for C8 at concrete inputs. -/
theorem c8_witness :
    ((get_conversation_history ("sys")
        ((add_message m1Store ("s1") ("user") ("hi") none none 1).2)
        ("s1") false 1).1
      = (get_conversation_history ("sys") m1Store ("s1") false 1).1
        ++ [specTranslate ⟨("user"), ("hi"), 1, none, none⟩])
    ∧ ((get_conversation_history ("sys") m1Store ("s1") true 0).1
      = (if true then [OAIMsg.system ("sys")] else [])
        ++ (⟨"s1", [], 0, 0⟩ : ChatSession).messages.map specTranslate) :=
  ⟨c8_history_reconstruction.2 ("sys") m1Store ("s1") ("user") ("hi")
      none none 1 ((add_message m1Store ("s1") ("user") ("hi") none none 1).2)
      (by decide),
   c8_history_reconstruction.1 ("sys") m1Store ("s1") ⟨"s1", [], 0, 0⟩
      m1Store true 0 (by decide)⟩

/-- C9 (code bug): a request carrying an unknown (or expired) explicit
session id makes `ask_question` raise `HTTPException(404)`, but the
route's own blanket `except Exception` catches it and re-raises status
500 with detail "Internal server error: 404: Session not found" — the
caller sees an internal-server-error condition, not a not-found one.
No replacement session is created (the store is unchanged); a request
that supplies no session id does create a fresh session. -/
theorem c9_unknown_session_wrapped_500 :
    (ask_question (fun _ _ => ("r")) ⟨some ("hello"), []⟩ ("fin") ("u9")
        ⟨("hi"), some ("ghost")⟩ (⟨[], 24⟩ : SessionManager) 0
      = (Except.error ⟨500, ("Internal server error: 404: Session not found")⟩,
         (⟨[], 24⟩ : SessionManager)))
    ∧ ((ask_question (fun _ _ => ("r")) ⟨some ("hello"), []⟩ ("fin") ("u9")
        ⟨("hi"), none⟩ (⟨[], 24⟩ : SessionManager) 0).2.sessions.map
          (fun p => p.1)) = [("u9")] :=
  ⟨rfl, rfl⟩

/-- C10: for an unknown or expired session id,
`get_conversation_history` returns the empty list — no failure, no
absence signal — and the system preamble is omitted even though
`include_system = true`; for a live session the preamble-bearing history
starts with the system message, so the missing preamble is what
distinguishes an absent session. -/
theorem c10_absent_history_empty :
    ∀ (prompt : String) (m : SessionManager) (sid : String) (now : Nat),
      ((get_session m sid now).1 = none →
        (get_conversation_history prompt m sid true now).1 = [])
      ∧ (∀ (s : ChatSession) (m1 : SessionManager),
          get_session m sid now = (some s, m1) →
          (get_conversation_history prompt m sid true now).1
            = OAIMsg.system prompt :: s.messages.map pyConvert) := by
  intro prompt m sid now
  constructor
  · intro h
    cases hg : get_session m sid now with
    | mk os m2 =>
      rw [hg] at h
      dsimp only at h
      subst h
      unfold get_conversation_history
      rw [hg]
  · intro s m1 hg
    unfold get_conversation_history
    rw [hg]
    simp

/-- Witness for C10 at concrete inputs. -/
theorem c10_witness :
    ((get_session (⟨[], 24⟩ : SessionManager) ("z") 0).1 = none
      ∧ (get_conversation_history ("sys") (⟨[], 24⟩ : SessionManager)
          ("z") true 0).1 = [])
    ∧ (get_session m1Store ("s1") 0 = (some ⟨"s1", [], 0, 0⟩, m1Store)
      ∧ (get_conversation_history ("sys") m1Store ("s1") true 0).1
          = OAIMsg.system ("sys")
            :: (⟨"s1", [], 0, 0⟩ : ChatSession).messages.map pyConvert) :=
  ⟨⟨by decide,
    (c10_absent_history_empty ("sys") ⟨[], 24⟩ ("z") 0).1 (by decide)⟩,
   ⟨by decide,
    (c10_absent_history_empty ("sys") m1Store ("s1") 0).2
      ⟨"s1", [], 0, 0⟩ m1Store (by decide)⟩⟩
